import Mathlib

/-
Shallow embedding of the Flask repair-shop application (`app.py`) of the
repository `Proyecto-sat-con-flask`.

The embedding covers the tables the verified claims are about (Client,
RepairOrder, StatusHistory, Part, CashEntry) and every request handler of
`app.py` that writes to one of them: `client_create`, `client_update`,
`order_create`, `order_update`, `order_change_status`, `add_part`,
`del_part`, `cash_create`, and the `seed` CLI command.  Handlers that only
touch the Settings or User tables (`settings_save`, `login`, `logout`) do
not reference any of these tables and are omitted.

Modelling conventions:
* Monetary `Float` columns are modelled as exact rationals (`ℚ`); the spec
  itself (section 4.2) reads the money arithmetic as exact decimal-safe
  arithmetic, and its design notes treat the source's binary floats as an
  implementation defect.  Python `round(x, 2)` is modelled as exact
  round-half-to-even on ℚ (`roundHalfEven`), Python's documented rounding
  mode.
* `request.form.get(k)` is modelled as an `Option String` argument (absent
  field = `none`); `request.form.get(k, d)` as `Option.getD d`.
* Row timestamps (`created_at`, `fecha`) are monotone `utcnow()` values, so
  "ordered by creation time" coincides with list-append order; lists keep
  rows in insertion order and the most recently created row is the last one.
* The per-order SQLAlchemy backrefs (`order.movimientos_caja`,
  `order.historial`) are the rows of the corresponding table whose
  `order_id` matches the order.
* Auto-increment primary keys are modelled by `next…Id` counters.
* `order.token_publico` (a fresh random token) and the timestamp values are
  not referenced by any claim and are left out of the row structures.
* Python string methods `strip` / `replace` / `startswith` / float parsing
  are modelled character-wise by `pyStrip` / `pyReplaceChar` /
  `pyStartsWith` / `pyFloat` over `String.toList`.  `pyFloat`
  models `float(s)` on finite decimal literals with optional sign, fraction
  and exponent; the special forms `inf` / `nan` (not finite rationals) and
  underscore digit grouping are modelled as parse failures — no claim and
  no realistic form input exercises them.
-/

namespace SatApp

/-- Order status codes with display labels, from `ORDER_STATES` in `app.py`.
The spec refers to the codes by English names: received = recibido,
diagnosis = diagnostico, in_progress = en_proceso, awaiting_parts =
esperando_repuestos, ready = listo, delivered = entregado, cancelled =
cancelado.  Likewise direction in = entrada, out = salida. -/
def ORDER_STATES : List (String × String) := [
  ("recibido", "Recibido"),
  ("diagnostico", "Diagnóstico"),
  ("en_proceso", "En proceso"),
  ("esperando_repuestos", "Esperando repuestos"),
  ("listo", "Listo para entregar"),
  ("entregado", "Entregado"),
  ("cancelado", "Cancelado")]

/-- The status codes: the key set of `dict(ORDER_STATES)`. -/
def statusCodes : List String := ORDER_STATES.map Prod.fst

/-- A row of the `client` table (fields relevant to validation; `dni` is
nullable in the schema and absent for the seeded demo client). -/
structure Client where
  id : Nat
  nombre : String
  telefono : String
  email : String
  direccion : String
  dni : Option String
deriving DecidableEq

/-- A row of the `repair_order` table.  `costo_estimado` is the nullable
estimated cost, `senia` the deposit (default 0), `estado` the current
status code. -/
structure RepairOrder where
  id : Nat
  client_id : Nat
  marca : String
  modelo : String
  imei : String
  accesorios : String
  clave_desbloqueo : String
  problema_reportado : String
  diagnostico : String
  costo_estimado : Option ℚ
  senia : ℚ
  estado : String
deriving DecidableEq

/-- A row of the `status_history` table: one append-only log entry. -/
structure StatusHistory where
  order_id : Nat
  estado : String
  nota : String
deriving DecidableEq

/-- A row of the `part` table: one spare-part line item of an order. -/
structure Part where
  id : Nat
  order_id : Nat
  descripcion : String
  costo : ℚ
deriving DecidableEq

/-- A row of the `cash_entry` table: one ledger movement.  `tipo` is the
direction ("entrada" = in / "salida" = out), `monto` the positive amount,
`order_id` the optional link to the order that caused the movement. -/
structure CashEntry where
  tipo : String
  concepto : String
  monto : ℚ
  order_id : Option Nat
deriving DecidableEq

/-- The persistent store: one list per table (insertion order preserved)
plus the auto-increment counters. -/
structure DB where
  clients : List Client
  orders : List RepairOrder
  historial : List StatusHistory
  parts : List Part
  caja : List CashEntry
  nextClientId : Nat
  nextOrderId : Nat
  nextPartId : Nat
deriving DecidableEq

/-- The empty database; SQLite auto-increment ids start at 1. -/
def initDB : DB := ⟨[], [], [], [], [], 1, 1, 1⟩

/-- ASCII whitespace, the default strip set of Python `str.strip` (the
further Unicode whitespace Python also strips never occurs in the inputs
the claims are about). -/
def pyIsSpace (c : Char) : Bool :=
  c == ' ' || c == '\t' || c == '\n' || c == '\r' || c == '\x0b' || c == '\x0c'

/-- Model of Python `str.strip()`: drop leading and trailing whitespace. -/
def pyStrip (s : String) : String :=
  ⟨((s.toList.dropWhile pyIsSpace).reverse.dropWhile pyIsSpace).reverse⟩

/-- Model of Python `s.replace(a, b)` for one-character patterns (the only
use in `app.py` is `val.replace(",", ".")`): replace every occurrence. -/
def pyReplaceChar (s : String) (a b : Char) : String :=
  ⟨s.toList.map (fun c => if c == a then b else c)⟩

/-- Value of a digit string, most significant digit first. -/
def digitsVal (ds : List Char) : Nat :=
  ds.foldl (fun a c => 10 * a + (c.toNat - 48)) 0

/-- Model of Python `float(s)` on finite decimal literals: optional
surrounding whitespace, optional sign, integer digits and/or a fractional
part, optional exponent.  Returns `none` on any other input (Python raises
`ValueError` there). -/
def pyFloat (s : String) : Option ℚ :=
  let cs0 := (pyStrip s).toList
  let sgn : ℚ := match cs0 with
    | '-' :: _ => -1
    | _ => 1
  let cs := match cs0 with
    | '+' :: t => t
    | '-' :: t => t
    | _ => cs0
  let ip := cs.takeWhile Char.isDigit
  let r1 := cs.dropWhile Char.isDigit
  let fp := match r1 with
    | '.' :: t => t.takeWhile Char.isDigit
    | _ => []
  let r2 := match r1 with
    | '.' :: t => t.dropWhile Char.isDigit
    | _ => r1
  if ip.isEmpty && fp.isEmpty then none
  else
    let mant : ℚ := sgn * ((digitsVal ip : ℚ) + (digitsVal fp : ℚ) / (10 : ℚ) ^ fp.length)
    match r2 with
    | [] => some mant
    | e :: t =>
      if e == 'e' || e == 'E' then
        let esgn : Int := match t with
          | '-' :: _ => -1
          | _ => 1
        let t2 := match t with
          | '+' :: u => u
          | '-' :: u => u
          | _ => t
        let ed := t2.takeWhile Char.isDigit
        let r3 := t2.dropWhile Char.isDigit
        if ed.isEmpty || !r3.isEmpty then none
        else some (mant * (10 : ℚ) ^ (esgn * (digitsVal ed : Int)))
      else none

/-- Model of `parse_float` in `app.py`: `None` or blank input is absent;
otherwise decimal commas become points and the string is parsed as a float,
with parse failures treated as absent. -/
def parse_float (val : Option String) : Option ℚ :=
  match val with
  | none => none
  | some v => if pyStrip v == "" then none else pyFloat (pyReplaceChar v ',' '.')

/-- Model of the Python idiom `x or 0.0` applied to an optional parsed
float: `None` and `0.0` are falsy and give `0.0`; any other value is kept. -/
def pyOrZero (v : Option ℚ) : ℚ :=
  match v with
  | none => 0
  | some x => if x = 0 then 0 else x

/-- Round-half-to-even of a rational to an integer: the model of Python's
builtin `round` (ties go to the even neighbour). -/
def roundHalfEven (x : ℚ) : Int :=
  let n := Int.floor x
  let f := x - n
  if f < 1 / 2 then n
  else if 1 / 2 < f then n + 1
  else if n % 2 = 0 then n else n + 1

/-- Model of Python `round(x, 2)`: round-half-to-even at two fraction
digits. -/
def round2 (x : ℚ) : ℚ := (roundHalfEven (x * 100) : ℚ) / 100

/-- Model of Python `str.startswith`: prefix test on the character
sequence. -/
def pyStartsWith (s p : String) : Bool := p.toList.isPrefixOf s.toList

/-- Sum of the amounts of a list of cash entries (Python `sum` over the
`monto` generator, starting at 0). -/
def sumMontos (l : List CashEntry) : ℚ := (l.map CashEntry.monto).sum

/-- Truthiness test `order.costo_estimado and order.costo_estimado > 0`:
`None` and `0.0` are falsy, then the positivity comparison runs. -/
def costoTruthyPos : Option ℚ → Bool
  | none => false
  | some c => !decide (c = 0) && decide (0 < c)

/-- Truthiness test `order.senia and order.senia > 0`. -/
def seniaTruthyPos (s : ℚ) : Bool := !decide (s = 0) && decide (0 < s)

/-- The cash movements linked to order `oid` with direction "entrada":
the rows summed into `total_pagado` in `order_change_status`. -/
def entradasFor (caja : List CashEntry) (oid : Nat) : List CashEntry :=
  caja.filter (fun e => e.order_id == some oid && e.tipo == "entrada")

/-- The cash movements linked to order `oid` with direction "salida" whose
concept starts with "Devolución seña": the rows summed into
`total_devuelto` in `order_change_status`. -/
def refundsFor (caja : List CashEntry) (oid : Nat) : List CashEntry :=
  caja.filter (fun e =>
    e.order_id == some oid && (e.tipo == "salida" && pyStartsWith e.concepto "Devolución seña"))

/-- The status-history rows of order `oid`, in creation order (the
`order.historial` backref, before its descending display sort). -/
def histFor (hist : List StatusHistory) (oid : Nat) : List StatusHistory :=
  hist.filter (fun h => h.order_id == oid)

/-- The cash-ledger side of `order_change_status` (the "LÓGICA DE CAJA"
block): on delivery with a truthy positive estimated cost, append the
remaining final payment if positive; otherwise on cancellation with a
truthy positive deposit, append the unrefunded deposit if positive;
otherwise leave the ledger unchanged.  The source's local names
(`total_pagado`, `restante`, `total_devuelto`, `a_devolver`) are inlined;
`order.costo_estimado.getD 0` is only read under `costoTruthyPos`, where
the column is non-null. -/
def statusCaja (db : DB) (order : RepairOrder) (nuevo : String) : List CashEntry :=
  if nuevo == "entregado" && costoTruthyPos order.costo_estimado then
    if 0 < round2 (order.costo_estimado.getD 0 - sumMontos (entradasFor db.caja order.id)) then
      db.caja ++ [⟨"entrada", "Pago final orden #" ++ toString order.id,
        round2 (order.costo_estimado.getD 0 - sumMontos (entradasFor db.caja order.id)),
        some order.id⟩]
    else db.caja
  else if nuevo == "cancelado" && seniaTruthyPos order.senia then
    if 0 < round2 (order.senia - sumMontos (refundsFor db.caja order.id)) then
      db.caja ++ [⟨"salida", "Devolución seña orden #" ++ toString order.id,
        round2 (order.senia - sumMontos (refundsFor db.caja order.id)), some order.id⟩]
    else db.caja
  else db.caja

/-- State produced by a successful `order_change_status` on `order`: the
status field updated, one history row appended, and the ledger side
effects of `statusCaja`. -/
def applyStatusChange (db : DB) (order : RepairOrder) (nuevo : String) (nota : String) : DB :=
  { db with
    orders := db.orders.map (fun o => if o.id == order.id then { o with estado := nuevo } else o),
    historial := db.historial ++ [⟨order.id, nuevo, nota⟩],
    caja := statusCaja db order nuevo }

/-- Handler `order_change_status` (`POST /orders/<id>/status`): look up the
order (404 if absent), reject a target status outside `ORDER_STATES`
before any mutation, otherwise apply the status change, history append and
ledger reconciliation. -/
def order_change_status (db : DB) (oid : Nat) (estado : Option String) (nota : Option String) :
    Except String DB :=
  match db.orders.find? (fun o => o.id == oid) with
  | none => Except.error "404"
  | some order =>
    match estado with
    | none => Except.error "Estado inválido."
    | some nuevo =>
      if statusCodes.contains nuevo then
        Except.ok (applyStatusChange db order nuevo (pyStrip (nota.getD "")))
      else Except.error "Estado inválido."

/-- Handler `client_create` (`POST /clients/new`): strip the form fields,
require a non-blank name and DNI, then append the client row. -/
def client_create (db : DB)
    (nombre telefono email direccion dni : Option String) : Except String DB :=
  let nombreV := pyStrip (nombre.getD "")
  let telefonoV := pyStrip (telefono.getD "")
  let emailV := pyStrip (email.getD "")
  let direccionV := pyStrip (direccion.getD "")
  let dniV := pyStrip (dni.getD "")
  if nombreV == "" then Except.error "El nombre es obligatorio"
  else if dniV == "" then Except.error "El DNI es obligatorio"
  else Except.ok { db with
    clients := db.clients ++
      [⟨db.nextClientId, nombreV, telefonoV, emailV, direccionV, some dniV⟩],
    nextClientId := db.nextClientId + 1 }

/-- Handler `client_update` (`POST /clients/<id>/edit`): 404 on an unknown
client, require a non-blank name and DNI, then overwrite the profile
fields. -/
def client_update (db : DB) (cid : Nat)
    (nombre telefono email direccion dni : Option String) : Except String DB :=
  if db.clients.any (fun c => c.id == cid) then
    let nombreV := pyStrip (nombre.getD "")
    let dniV := pyStrip (dni.getD "")
    if nombreV == "" then Except.error "El nombre es obligatorio"
    else if dniV == "" then Except.error "El DNI es obligatorio"
    else Except.ok { db with
      clients := db.clients.map (fun c =>
        if c.id == cid then
          { c with
            nombre := nombreV
            telefono := pyStrip (telefono.getD "")
            email := pyStrip (email.getD "")
            direccion := pyStrip (direccion.getD "")
            dni := some dniV }
        else c) }
  else Except.error "404"

/-- Handler `order_create` (`POST /orders/new`): require a valid client and
non-blank brand/model/problem, then append the order row with the parsed
cost and deposit and the form-supplied status (default "recibido"), append
the initial history row, and record the deposit in the ledger when it is
truthy and positive. -/
def order_create (db : DB) (client_id : Option Nat)
    (marca modelo problema imei accesorios clave diagnostico : Option String)
    (costoRaw seniaRaw : Option String) (estadoForm : Option String) : Except String DB :=
  match client_id with
  | none => Except.error "Debe seleccionar un cliente válido."
  | some cid =>
    if db.clients.any (fun c => c.id == cid) then
      let marcaV := pyStrip (marca.getD "")
      let modeloV := pyStrip (modelo.getD "")
      let problemaV := pyStrip (problema.getD "")
      if marcaV == "" || modeloV == "" || problemaV == "" then
        Except.error "Marca, modelo y problema reportado son obligatorios."
      else
        let order : RepairOrder :=
          ⟨db.nextOrderId, cid, marcaV, modeloV, pyStrip (imei.getD ""),
           pyStrip (accesorios.getD ""), pyStrip (clave.getD ""), problemaV,
           pyStrip (diagnostico.getD ""), parse_float costoRaw,
           pyOrZero (parse_float seniaRaw), estadoForm.getD "recibido"⟩
        Except.ok { db with
          orders := db.orders ++ [order],
          nextOrderId := db.nextOrderId + 1,
          historial := db.historial ++ [⟨order.id, order.estado, "Ingreso de la orden"⟩],
          caja := if seniaTruthyPos order.senia then
              db.caja ++ [⟨"entrada", "Seña orden #" ++ toString order.id, order.senia,
                some order.id⟩]
            else db.caja }
    else Except.error "Debe seleccionar un cliente válido."

/-- Handler `order_update` (`POST /orders/<id>/edit`): 404 on an unknown
order, require a valid client, then overwrite the descriptive fields and
the parsed cost and deposit.  The status, history and ledger are not
touched. -/
def order_update (db : DB) (oid : Nat) (client_id : Option Nat)
    (marca modelo imei accesorios clave problema diagnostico : Option String)
    (costoRaw seniaRaw : Option String) : Except String DB :=
  if db.orders.any (fun o => o.id == oid) then
    match client_id with
    | none => Except.error "Cliente inválido."
    | some cid =>
      if db.clients.any (fun c => c.id == cid) then
        Except.ok { db with
          orders := db.orders.map (fun o =>
            if o.id == oid then
              { o with
                client_id := cid
                marca := pyStrip (marca.getD "")
                modelo := pyStrip (modelo.getD "")
                imei := pyStrip (imei.getD "")
                accesorios := pyStrip (accesorios.getD "")
                clave_desbloqueo := pyStrip (clave.getD "")
                problema_reportado := pyStrip (problema.getD "")
                diagnostico := pyStrip (diagnostico.getD "")
                costo_estimado := parse_float costoRaw
                senia := pyOrZero (parse_float seniaRaw) }
            else o) }
      else Except.error "Cliente inválido."
  else Except.error "404"

/-- Handler `add_part` (`POST /orders/<id>/parts/add`): 404 on an unknown
order, require a non-blank description, then append the part row with the
parsed cost (default 0). -/
def add_part (db : DB) (oid : Nat) (descripcion : Option String) (costoRaw : Option String) :
    Except String DB :=
  if db.orders.any (fun o => o.id == oid) then
    let desc := pyStrip (descripcion.getD "")
    let costo := pyOrZero (parse_float costoRaw)
    if desc == "" then Except.error "Descripción de repuesto requerida."
    else Except.ok { db with
      parts := db.parts ++ [⟨db.nextPartId, oid, desc, costo⟩],
      nextPartId := db.nextPartId + 1 }
  else Except.error "404"

/-- Handler `del_part` (`POST /orders/<oid>/parts/<pid>/del`): 404 on an
unknown part, otherwise delete it (the order id in the route is not used
for the lookup). -/
def del_part (db : DB) (pid : Nat) : Except String DB :=
  if db.parts.any (fun p => p.id == pid) then
    Except.ok { db with parts := db.parts.filter (fun p => !(p.id == pid)) }
  else Except.error "404"

/-- Handler `cash_create` (`POST /cash/new`): require a direction in
{"entrada", "salida"}, a non-blank concept and a positive parsed amount,
then append the ledger row, linked to the referenced order when that order
exists (`RepairOrder.query.get` yields `None` otherwise). -/
def cash_create (db : DB) (tipo : Option String) (concepto : Option String)
    (montoRaw : Option String) (orderRef : Option Nat) : Except String DB :=
  let conceptoV := pyStrip (concepto.getD "")
  let monto := pyOrZero (parse_float montoRaw)
  match tipo with
  | none => Except.error "Completar tipo, concepto y monto (>0)."
  | some t =>
    if !(t == "entrada" || t == "salida") || conceptoV == "" || decide (monto ≤ 0) then
      Except.error "Completar tipo, concepto y monto (>0)."
    else
      let link := match orderRef with
        | some r => if db.orders.any (fun o => o.id == r) then some r else none
        | none => none
      Except.ok { db with caja := db.caja ++ [⟨t, conceptoV, monto, link⟩] }

/-- The `seed` CLI command: when no client exists yet, create the demo
client, a demo order in status "diagnostico" with estimated cost 45000 and
deposit 10000, its two history rows ("recibido" then "diagnostico"), a
demo part, and the deposit ledger entry; otherwise do nothing. -/
def seed (db : DB) : Except String DB :=
  if db.clients.isEmpty then
    let cid := db.nextClientId
    let oid := db.nextOrderId
    Except.ok { db with
      clients := db.clients ++
        [⟨cid, "Juan Pérez", "261-555-1234", "juan@example.com", "San Martín 123", none⟩],
      orders := db.orders ++
        [⟨oid, cid, "Samsung", "A54", "3598...", "Funda", "1-2-5-8", "No carga",
          "Conector", some 45000, 10000, "diagnostico"⟩],
      historial := db.historial ++
        [⟨oid, "recibido", "Ingreso"⟩, ⟨oid, "diagnostico", "Se detecta conector"⟩],
      parts := db.parts ++ [⟨db.nextPartId, oid, "Conector USB-C", 12000⟩],
      caja := db.caja ++ [⟨"entrada", "Seña orden #" ++ toString oid, 10000, some oid⟩],
      nextClientId := db.nextClientId + 1,
      nextOrderId := db.nextOrderId + 1,
      nextPartId := db.nextPartId + 1 }
  else Except.ok db

/-- One state-mutating request against the tables of the model, with the
raw form inputs. -/
inductive Op where
  | clientCreate (nombre telefono email direccion dni : Option String)
  | clientUpdate (cid : Nat) (nombre telefono email direccion dni : Option String)
  | orderCreate (client_id : Option Nat)
      (marca modelo problema imei accesorios clave diagnostico : Option String)
      (costoRaw seniaRaw : Option String) (estadoForm : Option String)
  | orderUpdate (oid : Nat) (client_id : Option Nat)
      (marca modelo imei accesorios clave problema diagnostico : Option String)
      (costoRaw seniaRaw : Option String)
  | orderChangeStatus (oid : Nat) (estado : Option String) (nota : Option String)
  | addPart (oid : Nat) (descripcion : Option String) (costoRaw : Option String)
  | delPart (pid : Nat)
  | cashCreate (tipo : Option String) (concepto : Option String)
      (montoRaw : Option String) (orderRef : Option Nat)
  | seedCmd
deriving DecidableEq

/-- Dispatch one request to its handler. -/
def runOp (db : DB) : Op → Except String DB
  | .clientCreate n t e d dni => client_create db n t e d dni
  | .clientUpdate cid n t e d dni => client_update db cid n t e d dni
  | .orderCreate cid ma mo pr im ac cl di co se es =>
      order_create db cid ma mo pr im ac cl di co se es
  | .orderUpdate oid cid ma mo im ac cl pr di co se =>
      order_update db oid cid ma mo im ac cl pr di co se
  | .orderChangeStatus oid es no => order_change_status db oid es no
  | .addPart oid de co => add_part db oid de co
  | .delPart pid => del_part db pid
  | .cashCreate t c m r => cash_create db t c m r
  | .seedCmd => seed db

/-- Effect of one request on the store: a rejected request flashes an error
and redirects without committing anything, leaving the store unchanged. -/
def applyOp (db : DB) (op : Op) : DB :=
  match runOp db op with
  | .ok db2 => db2
  | .error _ => db

/-- Effect of a request trace, oldest first. -/
def applyOps (db : DB) (ops : List Op) : DB := ops.foldl applyOp db

/-- A store state is reachable when some request trace produces it from the
empty store. -/
def Reachable (db : DB) : Prop := ∃ ops : List Op, applyOps initDB ops = db

/-- Totals of `cash_list` (`GET /cash`): sum of the amounts of the entries
with the given direction, 0 when there are none (`COALESCE(SUM(...), 0)`
plus the `or 0.0` fallback). -/
def totalTipo (caja : List CashEntry) (tipo : String) : ℚ :=
  sumMontos (caja.filter (fun e => e.tipo == tipo))

/-- Running balance of `cash_list`: total in minus total out, recomputed
from the full entry set. -/
def saldoCaja (caja : List CashEntry) : ℚ :=
  totalTipo caja "entrada" - totalTipo caja "salida"

/-- Number of "Pago final" (final payment) ledger entries of order `oid`. -/
def countFinal (db : DB) (oid : Nat) : Nat :=
  (db.caja.filter (fun e => e.concepto == "Pago final orden #" ++ toString oid)).length

/-- Number of "Devolución seña" (deposit refund) ledger entries of order
`oid`. -/
def countRefund (db : DB) (oid : Nat) : Nat :=
  (db.caja.filter (fun e => e.concepto == "Devolución seña orden #" ++ toString oid)).length

/-- A request whose explicit initial order status, when the request is an
order creation that supplies one, belongs to the status enumeration (the
statuses the order form offers).  `order_create` itself never checks
this. -/
def statusInputOk : Op → Prop
  | .orderCreate _ _ _ _ _ _ _ _ _ _ estadoForm =>
    match estadoForm with
    | none => True
    | some e => e ∈ statusCodes
  | _ => True

/-- Demo client used by the concrete scenarios. -/
def demoClient : Client := ⟨1, "Juan", "", "", "", some "1"⟩

/-- Demo order of the delivery scenario of the spec: estimated cost 45000,
deposit 10000. -/
def demoOrder : RepairOrder :=
  ⟨1, 1, "Samsung", "A54", "", "", "", "No carga", "", some 45000, 10000, "diagnostico"⟩

/-- Store holding `demoOrder` together with its recorded 10000 deposit
ledger entry. -/
def demo1 : DB :=
  ⟨[demoClient], [demoOrder], [⟨1, "recibido", "Ingreso"⟩], [],
   [⟨"entrada", "Seña orden #1", 10000, some 1⟩], 2, 2, 1⟩

/-- Store holding only `demoClient`, ready for an order creation. -/
def demo0 : DB := ⟨[demoClient], [], [], [], [], 2, 1, 1⟩

/-- State of `demo1` after a successful delivery: status updated, history
appended, and the remaining 35000 recorded as a final payment. -/
def demoDelivered : DB :=
  { demo1 with
    orders := [⟨1, 1, "Samsung", "A54", "", "", "", "No carga", "", some 45000, 10000,
      "entregado"⟩],
    historial := demo1.historial ++ [⟨1, "entregado", ""⟩],
    caja := demo1.caja ++ [⟨"entrada", "Pago final orden #1", 35000, some 1⟩] }

/-- State of `demo1` after a successful cancellation: status updated,
history appended, and the 10000 deposit refunded. -/
def demoCancelled : DB :=
  { demo1 with
    orders := [⟨1, 1, "Samsung", "A54", "", "", "", "No carga", "", some 45000, 10000,
      "cancelado"⟩],
    historial := demo1.historial ++ [⟨1, "cancelado", ""⟩],
    caja := demo1.caja ++ [⟨"salida", "Devolución seña orden #1", 10000, some 1⟩] }

/-- State of `demo0` after creating an order with a 10000 deposit. -/
def demoCreated : DB :=
  { demo0 with
    orders := [⟨1, 1, "Samsung", "A54", "", "", "", "No carga", "", none, 10000, "recibido"⟩],
    historial := [⟨1, "recibido", "Ingreso de la orden"⟩],
    caja := [⟨"entrada", "Seña orden #1", 10000, some 1⟩],
    nextOrderId := 2 }

/-- State of `demo0` after creating an order whose deposit field was
malformed: no ledger entry. -/
def demoCreatedND : DB :=
  { demo0 with
    orders := [⟨1, 1, "Samsung", "A54", "", "", "", "No carga", "", none, 0, "recibido"⟩],
    historial := [⟨1, "recibido", "Ingreso de la orden"⟩],
    nextOrderId := 2 }

/-- A request trace that creates an order whose explicit initial status
"xyz" is outside the status enumeration. -/
def badOps : List Op :=
  [Op.clientCreate (some "Ana") none none none (some "1"),
   Op.orderCreate (some 1) (some "LG") (some "K40") (some "Roto")
     none none none none none none (some "xyz")]

/-- Every order id was assigned below the auto-increment counter. -/
def OrdBound (db : DB) : Prop := ∀ o ∈ db.orders, o.id < db.nextOrderId

/-- Every order has a history whose most recent entry carries the order's
current status. -/
def HistMatch (db : DB) : Prop :=
  ∀ o ∈ db.orders,
    (histFor db.historial o.id).getLast?.map StatusHistory.estado = some o.estado

/-- Every ledger entry has a strictly positive amount. -/
def LedgerPos (db : DB) : Prop := ∀ e ∈ db.caja, 0 < e.monto

/-- The store invariant preserved by every request. -/
def StoreInv (db : DB) : Prop := OrdBound db ∧ HistMatch db ∧ LedgerPos db

/-
Rounding behaviour of the model of Python `round`.
-/

/-- The rounded value is within one half of the argument. -/
theorem roundHalfEven_sub_le (y : ℚ) :
    y - roundHalfEven y ≤ 1 / 2 ∧ -(1 / 2) ≤ y - roundHalfEven y := by
  unfold roundHalfEven
  have hf0 : (0 : ℚ) ≤ y - Int.floor y := by
    have := Int.floor_le y
    linarith
  have hf1 : y - Int.floor y < 1 := by
    have := Int.lt_floor_add_one y
    linarith
  by_cases h1 : y - (Int.floor y : ℚ) < 1 / 2
  · simp only [h1, if_true]
    constructor <;> linarith
  · by_cases h2 : (1 : ℚ) / 2 < y - Int.floor y
    · simp only [h1, if_false, h2, if_true]
      push_cast
      constructor <;> linarith
    · have he : y - (Int.floor y : ℚ) = 1 / 2 := by linarith
      by_cases h3 : Int.floor y % 2 = 0
      · simp only [h1, if_false, h2, if_false, h3, if_true]
        constructor <;> linarith
      · simp only [h1, if_false, h2, if_false, h3, if_false]
        push_cast
        constructor <;> linarith

/-- Anything within one half of zero rounds to zero, ties included (a tie
at ±1/2 goes to the even neighbour 0). -/
theorem roundHalfEven_eq_zero {y : ℚ} (h1 : -(1 / 2) ≤ y) (h2 : y ≤ 1 / 2) :
    roundHalfEven y = 0 := by
  unfold roundHalfEven
  rcases le_or_lt 0 y with hy | hy
  · have hfl : Int.floor y = 0 := by
      rw [Int.floor_eq_iff]
      constructor
      · exact_mod_cast hy
      · push_cast
        linarith
    rw [hfl]
    by_cases hlt : y - ((0 : Int) : ℚ) < 1 / 2
    · simp [hlt]
      intro h
      linarith
    · have hy2 : y - ((0 : Int) : ℚ) = 1 / 2 := by
        push_cast at hlt ⊢
        linarith
      simp [hlt, hy2]
      intro h
      linarith
  · have hfl : Int.floor y = -1 := by
      rw [Int.floor_eq_iff]
      constructor
      · push_cast
        linarith
      · push_cast
        linarith
    rw [hfl]
    have hnot : ¬ (y - ((-1 : Int) : ℚ) < 1 / 2) := by
      push_cast
      linarith
    by_cases hgt : (1 : ℚ) / 2 < y - ((-1 : Int) : ℚ)
    · simp [hnot, hgt]
      linarith
    · have hm : (-1 : Int) % 2 = 1 := by decide
      simp [hnot, hgt, hm]
      linarith

/-- Rounding the residual left by a previous rounding yields zero: the
heart of the reconciliation idempotence. -/
theorem round2_resid (x : ℚ) : round2 (x - round2 x) = 0 := by
  have hb := roundHalfEven_sub_le (x * 100)
  unfold round2
  have hx : (x - (roundHalfEven (x * 100) : ℚ) / 100) * 100
      = x * 100 - roundHalfEven (x * 100) := by ring
  rw [hx, roundHalfEven_eq_zero hb.2 hb.1]
  norm_num

/-
Small list facts about the table queries.
-/

theorem sumMontos_append (a b : List CashEntry) :
    sumMontos (a ++ b) = sumMontos a + sumMontos b := by
  unfold sumMontos
  rw [List.map_append, List.sum_append]

theorem entradasFor_append (a b : List CashEntry) (oid : Nat) :
    entradasFor (a ++ b) oid = entradasFor a oid ++ entradasFor b oid := by
  unfold entradasFor
  rw [List.filter_append]

theorem refundsFor_append (a b : List CashEntry) (oid : Nat) :
    refundsFor (a ++ b) oid = refundsFor a oid ++ refundsFor b oid := by
  unfold refundsFor
  rw [List.filter_append]

theorem histFor_append (a b : List StatusHistory) (oid : Nat) :
    histFor (a ++ b) oid = histFor a oid ++ histFor b oid := by
  unfold histFor
  rw [List.filter_append]

/-- Looking an order up by id commutes with an id-preserving update of the
orders table. -/
theorem find?_id_map (l : List RepairOrder) (k : Nat) (f : RepairOrder → RepairOrder)
    (hf : ∀ o, (f o).id = o.id) :
    (l.map f).find? (fun o => o.id == k) = (l.find? (fun o => o.id == k)).map f := by
  induction l with
  | nil => rfl
  | cons a t ih =>
    by_cases h : (a.id == k) = true
    · rw [List.map_cons, List.find?_cons_of_pos t h,
        List.find?_cons_of_pos (t.map f) (by simpa [hf a] using h)]
      rfl
    · rw [List.map_cons, List.find?_cons_of_neg t (by simpa using h),
        List.find?_cons_of_neg (t.map f) (by simpa [hf a] using h), ih]

theorem contains_false_of_not_mem {l : List String} {a : String} (h : ¬ a ∈ l) :
    l.contains a = false := by
  by_contra hc
  rw [Bool.not_eq_false] at hc
  obtain ⟨b, hb, he⟩ := List.contains_iff_exists_mem_beq.mp hc
  exact h (by rw [eq_of_beq he]; exact hb)

/-- On an existing order, a status change to "entregado" succeeds and takes
the `applyStatusChange` form. -/
theorem delivery_ok_form (db : DB) (oid : Nat) (order : RepairOrder) (nota : Option String)
    (hfind : db.orders.find? (fun o => o.id == oid) = some order) :
    order_change_status db oid (some "entregado") nota
      = Except.ok (applyStatusChange db order "entregado" (pyStrip (nota.getD ""))) := by
  unfold order_change_status
  simp only [hfind]
  rw [if_pos (by decide : statusCodes.contains "entregado" = true)]

/-- On an existing order, a status change to "cancelado" succeeds and takes
the `applyStatusChange` form. -/
theorem cancel_ok_form (db : DB) (oid : Nat) (order : RepairOrder) (nota : Option String)
    (hfind : db.orders.find? (fun o => o.id == oid) = some order) :
    order_change_status db oid (some "cancelado") nota
      = Except.ok (applyStatusChange db order "cancelado" (pyStrip (nota.getD ""))) := by
  unfold order_change_status
  simp only [hfind]
  rw [if_pos (by decide : statusCodes.contains "cancelado" = true)]

/-
The claims.
-/

/-- Claim C1: delivering an order with a present positive estimated cost
appends exactly one direction-in ledger entry of amount
round(estimated cost − already paid, 2), concept "Pago final orden #id",
linked to the order, when that amount is positive, and appends nothing
when it is not positive. -/
theorem delivery_final_payment (db : DB) (oid : Nat) (order : RepairOrder)
    (nota : Option String) (c : ℚ) (db2 : DB)
    (hfind : db.orders.find? (fun o => o.id == oid) = some order)
    (hc : order.costo_estimado = some c) (hpos : 0 < c)
    (hrun : order_change_status db oid (some "entregado") nota = Except.ok db2) :
    (0 < round2 (c - sumMontos (entradasFor db.caja order.id)) →
      db2.caja = db.caja ++ [⟨"entrada", "Pago final orden #" ++ toString order.id,
        round2 (c - sumMontos (entradasFor db.caja order.id)), some order.id⟩]) ∧
    (round2 (c - sumMontos (entradasFor db.caja order.id)) ≤ 0 → db2.caja = db.caja) := by
  have hct : costoTruthyPos order.costo_estimado = true := by
    rw [hc]
    simp [costoTruthyPos, hpos, ne_of_gt hpos]
  rw [delivery_ok_form db oid order nota hfind] at hrun
  injection hrun with hdb2
  have hcaja : db2.caja = statusCaja db order "entregado" := by
    rw [← hdb2]
    rfl
  have hcond : (("entregado" == "entregado") && costoTruthyPos order.costo_estimado) = true := by
    rw [hct]
    rfl
  have hg : order.costo_estimado.getD 0 = c := by
    rw [hc]
    rfl
  unfold statusCaja at hcaja
  rw [if_pos hcond, hg] at hcaja
  constructor
  · intro hr
    rwa [if_pos hr] at hcaja
  · intro hr
    rwa [if_neg (not_lt.mpr hr)] at hcaja

/-- Witness for C1, the spec's scenario: estimated cost 45000, one prior
linked deposit entry of 10000; delivery appends exactly one in-entry of
35000 with concept "Pago final orden #1". -/
theorem delivery_final_payment_witness :
    0 < (45000 : ℚ) ∧
    demoDelivered.caja = demo1.caja ++ [⟨"entrada", "Pago final orden #1", 35000, some 1⟩] := by
  have hrun : order_change_status demo1 1 (some "entregado") none = Except.ok demoDelivered := by
    simp [order_change_status, demo1, demoOrder, demoClient, applyStatusChange, statusCaja,
      entradasFor, sumMontos, costoTruthyPos, round2, roundHalfEven, pyStrip, statusCodes,
      ORDER_STATES, List.find?, demoDelivered]
    norm_num
    decide
  have h := delivery_final_payment demo1 1 demoOrder none 45000 demoDelivered rfl rfl
    (by norm_num) hrun
  have h35 : round2 (45000 - sumMontos (entradasFor demo1.caja demoOrder.id)) = 35000 := by
    simp [demo1, demoOrder, entradasFor, sumMontos, round2, roundHalfEven]
    norm_num
  refine ⟨by norm_num, ?_⟩
  have h2 := h.1 (by rw [h35]; norm_num)
  rw [h35] at h2
  have hs : ("Pago final orden #" ++ toString demoOrder.id) = "Pago final orden #1" := by decide
  rw [hs] at h2
  exact h2

/-- Claim C3: submitting a target status outside the enumeration to
`order_change_status` on an existing order reports the validation error
and leaves the store (order status, history, ledger) unchanged. -/
theorem invalid_status_no_mutation (db : DB) (oid : Nat) (order : RepairOrder)
    (bad : String) (nota : Option String)
    (hfind : db.orders.find? (fun o => o.id == oid) = some order)
    (hbad : ¬ bad ∈ statusCodes) :
    order_change_status db oid (some bad) nota = Except.error "Estado inválido." ∧
    applyOp db (Op.orderChangeStatus oid (some bad) nota) = db := by
  have hc : statusCodes.contains bad = false := contains_false_of_not_mem hbad
  have h1 : order_change_status db oid (some bad) nota = Except.error "Estado inválido." := by
    unfold order_change_status
    rw [hfind]
    simp [hc, hbad]
  refine ⟨h1, ?_⟩
  have h2 : runOp db (Op.orderChangeStatus oid (some bad) nota)
      = Except.error "Estado inválido." := h1
  unfold applyOp
  rw [h2]

/-- Witness for C3: the unknown status "xyz" is rejected on `demo1` with no
mutation. -/
theorem invalid_status_no_mutation_witness :
    order_change_status demo1 1 (some "xyz") none = Except.error "Estado inválido." ∧
    applyOp demo1 (Op.orderChangeStatus 1 (some "xyz") none) = demo1 :=
  invalid_status_no_mutation demo1 1 demoOrder "xyz" none rfl (by decide)

/-- Claim C8: the ledger balance equals total(in) minus total(out); a total
over a direction with no entries is 0; and over the entry set of the
scenario [(in, 100), (out, 40), (in, 5)] the balance is 65. -/
theorem cash_balance_spec :
    (∀ caja : List CashEntry,
        saldoCaja caja = totalTipo caja "entrada" - totalTipo caja "salida") ∧
    (∀ (caja : List CashEntry) (t : String),
        (∀ e ∈ caja, ¬ e.tipo = t) → totalTipo caja t = 0) ∧
    saldoCaja [⟨"entrada", "a", 100, none⟩, ⟨"salida", "b", 40, none⟩,
      ⟨"entrada", "c", 5, none⟩] = 65 := by
  refine ⟨fun caja => rfl, ?_, ?_⟩
  · intro caja t h
    unfold totalTipo sumMontos
    rw [List.filter_eq_nil_iff.mpr ?hn]
    · simp
    · intro e he
      simpa using h e he
  · simp [saldoCaja, totalTipo, sumMontos]
    norm_num

/-- Witness for C8: the total over an empty entry set is 0 (not null). -/
theorem cash_balance_spec_witness : totalTipo [] "entrada" = 0 :=
  cash_balance_spec.2.1 [] "entrada" (by simp)

/-- Claim C2: cancelling an order with a positive deposit appends exactly
one direction-out ledger entry of amount round(deposit − already refunded,
2) (already refunded summing the order's out-entries whose concept starts
with "Devolución seña"), concept "Devolución seña orden #id", linked to
the order, when that amount is positive, and appends nothing when it is
not positive. -/
theorem cancellation_deposit_refund (db : DB) (oid : Nat) (order : RepairOrder)
    (nota : Option String) (db2 : DB)
    (hfind : db.orders.find? (fun o => o.id == oid) = some order)
    (hdep : 0 < order.senia)
    (hrun : order_change_status db oid (some "cancelado") nota = Except.ok db2) :
    (0 < round2 (order.senia - sumMontos (refundsFor db.caja order.id)) →
      db2.caja = db.caja ++ [⟨"salida", "Devolución seña orden #" ++ toString order.id,
        round2 (order.senia - sumMontos (refundsFor db.caja order.id)), some order.id⟩]) ∧
    (round2 (order.senia - sumMontos (refundsFor db.caja order.id)) ≤ 0 →
      db2.caja = db.caja) := by
  have hst : seniaTruthyPos order.senia = true := by
    simp [seniaTruthyPos, hdep, ne_of_gt hdep]
  rw [cancel_ok_form db oid order nota hfind] at hrun
  injection hrun with hdb2
  have hcaja : db2.caja = statusCaja db order "cancelado" := by
    rw [← hdb2]
    rfl
  have hc1 : (("cancelado" == "entregado") && costoTruthyPos order.costo_estimado) = false := by
    rw [show ("cancelado" == "entregado") = false from by decide, Bool.false_and]
  have hc2 : (("cancelado" == "cancelado") && seniaTruthyPos order.senia) = true := by
    rw [show ("cancelado" == "cancelado") = true from by decide, Bool.true_and, hst]
  unfold statusCaja at hcaja
  rw [if_neg (by rw [hc1]; exact Bool.false_ne_true), if_pos hc2] at hcaja
  constructor
  · intro hr
    rwa [if_pos hr] at hcaja
  · intro hr
    rwa [if_neg (not_lt.mpr hr)] at hcaja

/-- Witness for C2, the spec's scenario: deposit 10000 and no prior refund
entry; cancellation appends exactly one out-entry of 10000 with concept
"Devolución seña orden #1". -/
theorem cancellation_deposit_refund_witness :
    0 < demoOrder.senia ∧
    demoCancelled.caja
      = demo1.caja ++ [⟨"salida", "Devolución seña orden #1", 10000, some 1⟩] := by
  have hrun : order_change_status demo1 1 (some "cancelado") none
      = Except.ok demoCancelled := by
    simp [order_change_status, demo1, demoOrder, demoClient, applyStatusChange, statusCaja,
      refundsFor, entradasFor, sumMontos, costoTruthyPos, seniaTruthyPos, round2, roundHalfEven,
      pyStrip, pyStartsWith, statusCodes, ORDER_STATES, List.find?, demoCancelled]
    norm_num
    decide
  have h := cancellation_deposit_refund demo1 1 demoOrder none demoCancelled rfl
    (by show (0 : ℚ) < 10000; norm_num) hrun
  have h10 : round2 (demoOrder.senia - sumMontos (refundsFor demo1.caja demoOrder.id))
      = 10000 := by
    simp [demo1, demoOrder, refundsFor, sumMontos, round2, roundHalfEven, pyStartsWith]
    norm_num
  refine ⟨by show (0 : ℚ) < 10000; norm_num, ?_⟩
  have h2 := h.1 (by rw [h10]; norm_num)
  rw [h10] at h2
  have hs : ("Devolución seña orden #" ++ toString demoOrder.id)
      = "Devolución seña orden #1" := by decide
  rw [hs] at h2
  exact h2

/-- Claim C10: creating an order whose parsed deposit is positive appends
exactly one direction-in ledger entry of that amount, with the new order's
id in the concept, linked to the new order; an absent, malformed or zero
deposit field appends nothing. -/
theorem order_create_deposit (db : DB) (cid : Nat)
    (marca modelo problema imei acc clave diag : Option String)
    (costoRaw seniaRaw estadoForm : Option String) (db2 : DB)
    (hrun : order_create db (some cid) marca modelo problema imei acc clave diag
      costoRaw seniaRaw estadoForm = Except.ok db2) :
    (∀ v : ℚ, parse_float seniaRaw = some v → 0 < v →
      db2.caja = db.caja ++ [⟨"entrada", "Seña orden #" ++ toString db.nextOrderId, v,
        some db.nextOrderId⟩]) ∧
    ((parse_float seniaRaw = none ∨ parse_float seniaRaw = some 0) → db2.caja = db.caja) := by
  simp only [order_create] at hrun
  by_cases h1 : (db.clients.any fun c => c.id == cid) = true
  · rw [if_pos h1] at hrun
    by_cases h2 : (pyStrip (marca.getD "") == "" || pyStrip (modelo.getD "") == ""
        || pyStrip (problema.getD "") == "") = true
    · rw [if_pos h2] at hrun
      exact absurd hrun (by simp)
    · rw [if_neg h2] at hrun
      injection hrun with hdb2
      have hcaja : db2.caja = (if seniaTruthyPos (pyOrZero (parse_float seniaRaw)) then
          db.caja ++ [⟨"entrada", "Seña orden #" ++ toString db.nextOrderId,
            pyOrZero (parse_float seniaRaw), some db.nextOrderId⟩]
        else db.caja) := by
        rw [← hdb2]
      constructor
      · intro v hv hvpos
        rw [hv] at hcaja
        have hz : pyOrZero (some v) = v := by
          simp [pyOrZero, ne_of_gt hvpos]
        rw [hz] at hcaja
        rwa [if_pos (by simp [seniaTruthyPos, hvpos, ne_of_gt hvpos])] at hcaja
      · intro hv
        rcases hv with hv | hv <;> rw [hv] at hcaja
        · rwa [if_neg (by simp [pyOrZero, seniaTruthyPos])] at hcaja
        · rwa [if_neg (by simp [pyOrZero, seniaTruthyPos])] at hcaja
  · rw [if_neg h1] at hrun
    exact absurd hrun (by simp)

/-- Witness for C10: a deposit field "10000" parses to 10000 and yields
exactly one linked deposit entry; a malformed deposit field "abc" parses
to absent and yields no entry. -/
theorem order_create_deposit_witness :
    parse_float (some "10000") = some 10000 ∧
    demoCreated.caja = demo0.caja ++ [⟨"entrada", "Seña orden #1", 10000, some 1⟩] ∧
    parse_float (some "abc") = none ∧
    demoCreatedND.caja = demo0.caja := by
  have hp : parse_float (some "10000") = some 10000 := by
    simp [parse_float, pyFloat, pyStrip, pyReplaceChar, pyIsSpace, digitsVal]
  have hpn : parse_float (some "abc") = none := by
    simp [parse_float, pyFloat, pyStrip, pyReplaceChar, pyIsSpace, digitsVal]
  have hr1 : order_create demo0 (some 1) (some "Samsung") (some "A54") (some "No carga")
      none none none none none (some "10000") none = Except.ok demoCreated := by
    simp [order_create, demo0, demoClient, parse_float, pyFloat, pyStrip, pyReplaceChar,
      pyIsSpace, digitsVal, pyOrZero, seniaTruthyPos, demoCreated]
    all_goals decide
  have hr2 : order_create demo0 (some 1) (some "Samsung") (some "A54") (some "No carga")
      none none none none none (some "abc") none = Except.ok demoCreatedND := by
    simp [order_create, demo0, demoClient, parse_float, pyFloat, pyStrip, pyReplaceChar,
      pyIsSpace, digitsVal, pyOrZero, seniaTruthyPos, demoCreatedND]
  have h1 := order_create_deposit demo0 1 (some "Samsung") (some "A54") (some "No carga")
    none none none none none (some "10000") none demoCreated hr1
  have h2 := order_create_deposit demo0 1 (some "Samsung") (some "A54") (some "No carga")
    none none none none none (some "abc") none demoCreatedND hr2
  refine ⟨hp, ?_, hpn, h2.2 (Or.inl hpn)⟩
  have h3 := h1.1 10000 hp (by norm_num)
  simpa using h3

theorem statusCaja_entregado (db : DB) (order : RepairOrder) :
    statusCaja db order "entregado" =
      if costoTruthyPos order.costo_estimado then
        if 0 < round2 (order.costo_estimado.getD 0 - sumMontos (entradasFor db.caja order.id)) then
          db.caja ++ [⟨"entrada", "Pago final orden #" ++ toString order.id,
            round2 (order.costo_estimado.getD 0 - sumMontos (entradasFor db.caja order.id)),
            some order.id⟩]
        else db.caja
      else db.caja := by
  have he : (("entregado" == "entregado") && costoTruthyPos order.costo_estimado)
      = costoTruthyPos order.costo_estimado := by
    rw [show ("entregado" == "entregado") = true from by decide, Bool.true_and]
  have hcz : (("entregado" == "cancelado") && seniaTruthyPos order.senia) = false := by
    rw [show ("entregado" == "cancelado") = false from by decide, Bool.false_and]
  unfold statusCaja
  rw [he, hcz]
  by_cases hct : costoTruthyPos order.costo_estimado = true
  · rw [if_pos hct, if_pos hct]
  · rw [if_neg hct, if_neg hct, if_neg Bool.false_ne_true]

theorem find?_applyStatusChange (db : DB) (order : RepairOrder) (nuevo nota : String) (k : Nat)
    (hfind : db.orders.find? (fun o => o.id == k) = some order) :
    (applyStatusChange db order nuevo nota).orders.find? (fun o => o.id == k)
      = some { order with estado := nuevo } := by
  unfold applyStatusChange
  rw [find?_id_map db.orders k _ (fun o => by split <;> rfl), hfind]
  simp

theorem countFinal_caja (db db2 : DB) (oid : Nat) (h : db2.caja = db.caja) :
    countFinal db2 oid = countFinal db oid := by
  unfold countFinal
  rw [h]

theorem countFinal_append_one (db db2 : DB) (oid : Nat) (E : CashEntry)
    (hE : E.concepto = "Pago final orden #" ++ toString oid)
    (h : db2.caja = db.caja ++ [E]) :
    countFinal db2 oid = countFinal db oid + 1 := by
  unfold countFinal
  rw [h, List.filter_append, List.length_append]
  simp [hE]

/-- Claim C4: delivering the same order twice in a row (no other mutation
in between, estimated cost fixed) adds at most one new "Pago final" ledger
entry in total: the second call recomputes the remainder against the grown
already-paid sum and adds nothing. -/
theorem delivery_idempotent (db : DB) (oid : Nat) :
    countFinal (applyOp (applyOp db (Op.orderChangeStatus oid (some "entregado") (some "")))
      (Op.orderChangeStatus oid (some "entregado") (some ""))) oid
      ≤ countFinal db oid + 1 := by
  rcases hfind : db.orders.find? (fun o => o.id == oid) with _ | order
  · have herr : runOp db (Op.orderChangeStatus oid (some "entregado") (some ""))
        = Except.error "404" := by
      show order_change_status db oid (some "entregado") (some "") = _
      unfold order_change_status
      rw [hfind]
    have h1 : applyOp db (Op.orderChangeStatus oid (some "entregado") (some "")) = db := by
      unfold applyOp
      rw [herr]
    rw [h1, h1]
    exact Nat.le_succ _
  · have hid : order.id = oid := by
      simpa using List.find?_some hfind
    have h1 : applyOp db (Op.orderChangeStatus oid (some "entregado") (some ""))
        = applyStatusChange db order "entregado" (pyStrip "") := by
      unfold applyOp
      rw [show runOp db (Op.orderChangeStatus oid (some "entregado") (some ""))
        = Except.ok (applyStatusChange db order "entregado" (pyStrip ((some "").getD "")))
        from delivery_ok_form db oid order (some "") hfind]
      rfl
    have hfind2 : (applyStatusChange db order "entregado" (pyStrip "")).orders.find?
        (fun o => o.id == oid) = some { order with estado := "entregado" } :=
      find?_applyStatusChange db order "entregado" (pyStrip "") oid hfind
    have h2 : applyOp (applyStatusChange db order "entregado" (pyStrip ""))
        (Op.orderChangeStatus oid (some "entregado") (some ""))
        = applyStatusChange (applyStatusChange db order "entregado" (pyStrip ""))
            { order with estado := "entregado" } "entregado" (pyStrip "") := by
      unfold applyOp
      rw [show runOp (applyStatusChange db order "entregado" (pyStrip ""))
        (Op.orderChangeStatus oid (some "entregado") (some ""))
        = Except.ok (applyStatusChange (applyStatusChange db order "entregado" (pyStrip ""))
          { order with estado := "entregado" } "entregado" (pyStrip ((some "").getD "")))
        from delivery_ok_form _ oid _ (some "") hfind2]
      rfl
    rw [h1, h2]
    have hcaja1 : (applyStatusChange db order "entregado" (pyStrip "")).caja
        = statusCaja db order "entregado" := rfl
    have hcaja2 : (applyStatusChange (applyStatusChange db order "entregado" (pyStrip ""))
        { order with estado := "entregado" } "entregado" (pyStrip "")).caja
        = statusCaja (applyStatusChange db order "entregado" (pyStrip ""))
            { order with estado := "entregado" } "entregado" := rfl
    by_cases hct : costoTruthyPos order.costo_estimado = true
    · by_cases hrem : 0 < round2 (order.costo_estimado.getD 0
          - sumMontos (entradasFor db.caja order.id))
      · -- first call appends E, second call appends nothing
        have e1 : statusCaja db order "entregado"
            = db.caja ++ [⟨"entrada", "Pago final orden #" ++ toString order.id,
                round2 (order.costo_estimado.getD 0 - sumMontos (entradasFor db.caja order.id)),
                some order.id⟩] := by
          rw [statusCaja_entregado, if_pos hct, if_pos hrem]
        have hpaid2 : sumMontos (entradasFor (statusCaja db order "entregado") order.id)
            = sumMontos (entradasFor db.caja order.id)
              + round2 (order.costo_estimado.getD 0
                - sumMontos (entradasFor db.caja order.id)) := by
          rw [e1, entradasFor_append, sumMontos_append]
          simp [entradasFor, sumMontos]
        have hrem2 : round2 (order.costo_estimado.getD 0
            - sumMontos (entradasFor (statusCaja db order "entregado") order.id)) = 0 := by
          rw [hpaid2]
          have : order.costo_estimado.getD 0
              - (sumMontos (entradasFor db.caja order.id)
                + round2 (order.costo_estimado.getD 0 - sumMontos (entradasFor db.caja order.id)))
              = (order.costo_estimado.getD 0 - sumMontos (entradasFor db.caja order.id))
                - round2 (order.costo_estimado.getD 0
                  - sumMontos (entradasFor db.caja order.id)) := by ring
          rw [this, round2_resid]
        have e2 : statusCaja (applyStatusChange db order "entregado" (pyStrip ""))
            { order with estado := "entregado" } "entregado"
            = statusCaja db order "entregado" := by
          rw [statusCaja_entregado, if_pos hct]
          rw [show ({ order with estado := "entregado" } : RepairOrder).costo_estimado
            = order.costo_estimado from rfl]
          rw [show ({ order with estado := "entregado" } : RepairOrder).id = order.id from rfl]
          rw [hcaja1, hrem2]
          simp
        have hcnt2 := countFinal_append_one db
          (applyStatusChange (applyStatusChange db order "entregado" (pyStrip ""))
            { order with estado := "entregado" } "entregado" (pyStrip "")) oid
          ⟨"entrada", "Pago final orden #" ++ toString order.id,
            round2 (order.costo_estimado.getD 0 - sumMontos (entradasFor db.caja order.id)),
            some order.id⟩ (by rw [hid]) (by rw [hcaja2, e2, e1])
        rw [hcnt2]
      · have e1 : statusCaja db order "entregado" = db.caja := by
          rw [statusCaja_entregado, if_pos hct, if_neg hrem]
        have e2 : statusCaja (applyStatusChange db order "entregado" (pyStrip ""))
            { order with estado := "entregado" } "entregado" = db.caja := by
          rw [statusCaja_entregado, if_pos hct]
          rw [show ({ order with estado := "entregado" } : RepairOrder).costo_estimado
            = order.costo_estimado from rfl]
          rw [show ({ order with estado := "entregado" } : RepairOrder).id = order.id from rfl]
          rw [hcaja1, e1, if_neg hrem]
        have := countFinal_caja db (applyStatusChange (applyStatusChange db order "entregado"
          (pyStrip "")) { order with estado := "entregado" } "entregado" (pyStrip "")) oid
          (by rw [hcaja2, e2])
        rw [this]
        exact Nat.le_succ _
    · have e1 : statusCaja db order "entregado" = db.caja := by
        rw [statusCaja_entregado, if_neg hct]
      have e2 : statusCaja (applyStatusChange db order "entregado" (pyStrip ""))
          { order with estado := "entregado" } "entregado" = db.caja := by
        rw [statusCaja_entregado]
        rw [show ({ order with estado := "entregado" } : RepairOrder).costo_estimado
          = order.costo_estimado from rfl]
        rw [if_neg hct, hcaja1, e1]
      have := countFinal_caja db (applyStatusChange (applyStatusChange db order "entregado"
        (pyStrip "")) { order with estado := "entregado" } "entregado" (pyStrip "")) oid
        (by rw [hcaja2, e2])
      rw [this]
      exact Nat.le_succ _
theorem refund_concept_startsWith (n : Nat) :
    pyStartsWith ("Devolución seña orden #" ++ toString n) "Devolución seña" = true := by
  unfold pyStartsWith
  have hsplit : ("Devolución seña orden #" ++ toString n).toList
      = "Devolución seña".toList ++ (" orden #".toList ++ (toString n).toList) := by
    show ("Devolución seña orden #" ++ toString n).data = _
    rw [String.data_append]
    rw [show ("Devolución seña orden #").data = ("Devolución seña").data ++ (" orden #").data
      from by decide]
    rw [List.append_assoc]
    rfl
  rw [hsplit]
  exact List.isPrefixOf_iff_prefix.mpr (List.prefix_append _ _)

theorem statusCaja_cancelado (db : DB) (order : RepairOrder) :
    statusCaja db order "cancelado" =
      if seniaTruthyPos order.senia then
        if 0 < round2 (order.senia - sumMontos (refundsFor db.caja order.id)) then
          db.caja ++ [⟨"salida", "Devolución seña orden #" ++ toString order.id,
            round2 (order.senia - sumMontos (refundsFor db.caja order.id)), some order.id⟩]
        else db.caja
      else db.caja := by
  have he : (("cancelado" == "entregado") && costoTruthyPos order.costo_estimado) = false := by
    rw [show ("cancelado" == "entregado") = false from by decide, Bool.false_and]
  have hcz : (("cancelado" == "cancelado") && seniaTruthyPos order.senia)
      = seniaTruthyPos order.senia := by
    rw [show ("cancelado" == "cancelado") = true from by decide, Bool.true_and]
  unfold statusCaja
  rw [he, hcz, if_neg Bool.false_ne_true]

theorem countRefund_caja (db db2 : DB) (oid : Nat) (h : db2.caja = db.caja) :
    countRefund db2 oid = countRefund db oid := by
  unfold countRefund
  rw [h]

theorem countRefund_append_one (db db2 : DB) (oid : Nat) (E : CashEntry)
    (hE : E.concepto = "Devolución seña orden #" ++ toString oid)
    (h : db2.caja = db.caja ++ [E]) :
    countRefund db2 oid = countRefund db oid + 1 := by
  unfold countRefund
  rw [h, List.filter_append, List.length_append]
  simp [hE]

/-- Claim C5: cancelling the same order twice in a row (no other mutation
in between) adds at most one "Devolución seña" ledger entry in total. -/
theorem cancellation_idempotent (db : DB) (oid : Nat) :
    countRefund (applyOp (applyOp db (Op.orderChangeStatus oid (some "cancelado") (some "")))
      (Op.orderChangeStatus oid (some "cancelado") (some ""))) oid
      ≤ countRefund db oid + 1 := by
  rcases hfind : db.orders.find? (fun o => o.id == oid) with _ | order
  · have herr : runOp db (Op.orderChangeStatus oid (some "cancelado") (some ""))
        = Except.error "404" := by
      show order_change_status db oid (some "cancelado") (some "") = _
      unfold order_change_status
      rw [hfind]
    have h1 : applyOp db (Op.orderChangeStatus oid (some "cancelado") (some "")) = db := by
      unfold applyOp
      rw [herr]
    rw [h1, h1]
    exact Nat.le_succ _
  · have hid : order.id = oid := by
      simpa using List.find?_some hfind
    have h1 : applyOp db (Op.orderChangeStatus oid (some "cancelado") (some ""))
        = applyStatusChange db order "cancelado" (pyStrip "") := by
      unfold applyOp
      rw [show runOp db (Op.orderChangeStatus oid (some "cancelado") (some ""))
        = Except.ok (applyStatusChange db order "cancelado" (pyStrip ((some "").getD "")))
        from cancel_ok_form db oid order (some "") hfind]
      rfl
    have hfind2 : (applyStatusChange db order "cancelado" (pyStrip "")).orders.find?
        (fun o => o.id == oid) = some { order with estado := "cancelado" } :=
      find?_applyStatusChange db order "cancelado" (pyStrip "") oid hfind
    have h2 : applyOp (applyStatusChange db order "cancelado" (pyStrip ""))
        (Op.orderChangeStatus oid (some "cancelado") (some ""))
        = applyStatusChange (applyStatusChange db order "cancelado" (pyStrip ""))
            { order with estado := "cancelado" } "cancelado" (pyStrip "") := by
      unfold applyOp
      rw [show runOp (applyStatusChange db order "cancelado" (pyStrip ""))
        (Op.orderChangeStatus oid (some "cancelado") (some ""))
        = Except.ok (applyStatusChange (applyStatusChange db order "cancelado" (pyStrip ""))
          { order with estado := "cancelado" } "cancelado" (pyStrip ((some "").getD "")))
        from cancel_ok_form _ oid _ (some "") hfind2]
      rfl
    rw [h1, h2]
    have hcaja1 : (applyStatusChange db order "cancelado" (pyStrip "")).caja
        = statusCaja db order "cancelado" := rfl
    have hcaja2 : (applyStatusChange (applyStatusChange db order "cancelado" (pyStrip ""))
        { order with estado := "cancelado" } "cancelado" (pyStrip "")).caja
        = statusCaja (applyStatusChange db order "cancelado" (pyStrip ""))
            { order with estado := "cancelado" } "cancelado" := rfl
    by_cases hst : seniaTruthyPos order.senia = true
    · by_cases hrem : 0 < round2 (order.senia - sumMontos (refundsFor db.caja order.id))
      · have e1 : statusCaja db order "cancelado"
            = db.caja ++ [⟨"salida", "Devolución seña orden #" ++ toString order.id,
                round2 (order.senia - sumMontos (refundsFor db.caja order.id)),
                some order.id⟩] := by
          rw [statusCaja_cancelado, if_pos hst, if_pos hrem]
        have hpaid2 : sumMontos (refundsFor (statusCaja db order "cancelado") order.id)
            = sumMontos (refundsFor db.caja order.id)
              + round2 (order.senia - sumMontos (refundsFor db.caja order.id)) := by
          rw [e1, refundsFor_append, sumMontos_append]
          simp [refundsFor, sumMontos, refund_concept_startsWith order.id]
        have hrem2 : round2 (order.senia
            - sumMontos (refundsFor (statusCaja db order "cancelado") order.id)) = 0 := by
          rw [hpaid2]
          have harr : order.senia
              - (sumMontos (refundsFor db.caja order.id)
                + round2 (order.senia - sumMontos (refundsFor db.caja order.id)))
              = (order.senia - sumMontos (refundsFor db.caja order.id))
                - round2 (order.senia - sumMontos (refundsFor db.caja order.id)) := by ring
          rw [harr, round2_resid]
        have e2 : statusCaja (applyStatusChange db order "cancelado" (pyStrip ""))
            { order with estado := "cancelado" } "cancelado"
            = statusCaja db order "cancelado" := by
          rw [statusCaja_cancelado]
          rw [show ({ order with estado := "cancelado" } : RepairOrder).senia
            = order.senia from rfl]
          rw [show ({ order with estado := "cancelado" } : RepairOrder).id = order.id from rfl]
          rw [if_pos hst, hcaja1, hrem2]
          simp
        have hcnt2 := countRefund_append_one db
          (applyStatusChange (applyStatusChange db order "cancelado" (pyStrip ""))
            { order with estado := "cancelado" } "cancelado" (pyStrip "")) oid
          ⟨"salida", "Devolución seña orden #" ++ toString order.id,
            round2 (order.senia - sumMontos (refundsFor db.caja order.id)),
            some order.id⟩ (by rw [hid]) (by rw [hcaja2, e2, e1])
        rw [hcnt2]
      · have e1 : statusCaja db order "cancelado" = db.caja := by
          rw [statusCaja_cancelado, if_pos hst, if_neg hrem]
        have e2 : statusCaja (applyStatusChange db order "cancelado" (pyStrip ""))
            { order with estado := "cancelado" } "cancelado" = db.caja := by
          rw [statusCaja_cancelado]
          rw [show ({ order with estado := "cancelado" } : RepairOrder).senia
            = order.senia from rfl]
          rw [show ({ order with estado := "cancelado" } : RepairOrder).id = order.id from rfl]
          rw [if_pos hst, hcaja1, e1, if_neg hrem]
        have hcc := countRefund_caja db (applyStatusChange (applyStatusChange db order "cancelado"
          (pyStrip "")) { order with estado := "cancelado" } "cancelado" (pyStrip "")) oid
          (by rw [hcaja2, e2])
        rw [hcc]
        exact Nat.le_succ _
    · have e1 : statusCaja db order "cancelado" = db.caja := by
        rw [statusCaja_cancelado, if_neg hst]
      have e2 : statusCaja (applyStatusChange db order "cancelado" (pyStrip ""))
          { order with estado := "cancelado" } "cancelado" = db.caja := by
        rw [statusCaja_cancelado]
        rw [show ({ order with estado := "cancelado" } : RepairOrder).senia
          = order.senia from rfl]
        rw [if_neg hst, hcaja1, e1]
      have hcc := countRefund_caja db (applyStatusChange (applyStatusChange db order "cancelado"
        (pyStrip "")) { order with estado := "cancelado" } "cancelado" (pyStrip "")) oid
        (by rw [hcaja2, e2])
      rw [hcc]
      exact Nat.le_succ _

theorem getLast?_append_two {α : Type} (l : List α) (a b : α) :
    (l ++ [a, b]).getLast? = some b := by
  rw [show l ++ [a, b] = (l ++ [a]) ++ [b] from by simp, List.getLast?_concat]

theorem histFor_singleton_ne (h0 : StatusHistory) (k : Nat) (hne : ¬ h0.order_id = k) :
    histFor [h0] k = [] := by
  simp [histFor, hne]

theorem mem_of_contains {l : List String} {a : String} (h : l.contains a = true) : a ∈ l := by
  obtain ⟨b, hb, he⟩ := List.contains_iff_exists_mem_beq.mp h
  rw [eq_of_beq he]
  exact hb

theorem storeInv_client_create (db : DB) (n t e d dni : Option String) (db2 : DB)
    (h : StoreInv db) (hr : client_create db n t e d dni = Except.ok db2) : StoreInv db2 := by
  simp only [client_create] at hr
  split at hr
  · exact absurd hr (by simp)
  · split at hr
    · exact absurd hr (by simp)
    · injection hr with hdb2
      rw [← hdb2]
      exact h

theorem storeInv_client_update (db : DB) (cid : Nat) (n t e d dni : Option String) (db2 : DB)
    (h : StoreInv db) (hr : client_update db cid n t e d dni = Except.ok db2) : StoreInv db2 := by
  simp only [client_update] at hr
  split at hr
  · split at hr
    · exact absurd hr (by simp)
    · split at hr
      · exact absurd hr (by simp)
      · injection hr with hdb2
        rw [← hdb2]
        exact h
  · exact absurd hr (by simp)

theorem storeInv_add_part (db : DB) (oid : Nat) (de co : Option String) (db2 : DB)
    (h : StoreInv db) (hr : add_part db oid de co = Except.ok db2) : StoreInv db2 := by
  simp only [add_part] at hr
  split at hr
  · split at hr
    · exact absurd hr (by simp)
    · injection hr with hdb2
      rw [← hdb2]
      exact h
  · exact absurd hr (by simp)

theorem storeInv_del_part (db : DB) (pid : Nat) (db2 : DB)
    (h : StoreInv db) (hr : del_part db pid = Except.ok db2) : StoreInv db2 := by
  simp only [del_part] at hr
  split at hr
  · injection hr with hdb2
    rw [← hdb2]
    exact h
  · exact absurd hr (by simp)
theorem storeInv_cash_create (db : DB) (tipo concepto montoRaw : Option String)
    (orderRef : Option Nat) (db2 : DB)
    (h : StoreInv db) (hr : cash_create db tipo concepto montoRaw orderRef = Except.ok db2) :
    StoreInv db2 := by
  cases tipo with
  | none =>
    simp only [cash_create] at hr
    exact absurd hr (by simp)
  | some t =>
    simp only [cash_create] at hr
    by_cases hcond : (!(t == "entrada" || t == "salida") || pyStrip (concepto.getD "") == ""
        || decide (pyOrZero (parse_float montoRaw) ≤ 0)) = true
    · rw [if_pos hcond] at hr
      exact absurd hr (by simp)
    · rw [if_neg hcond] at hr
      injection hr with hdb2
      subst hdb2
      refine ⟨h.1, h.2.1, ?_⟩
      intro e he
      rcases List.mem_append.mp he with he2 | he2
      · exact h.2.2 e he2
      · rw [List.mem_singleton] at he2
        subst he2
        simp at hcond
        exact hcond.2

theorem storeInv_order_update (db : DB) (oid : Nat) (cid : Option Nat)
    (ma mo im ac cl pr di co se : Option String) (db2 : DB)
    (h : StoreInv db) (hr : order_update db oid cid ma mo im ac cl pr di co se = Except.ok db2) :
    StoreInv db2 := by
  cases cid with
  | none =>
    simp only [order_update] at hr
    split at hr <;> exact absurd hr (by simp)
  | some c =>
    simp only [order_update] at hr
    by_cases h1 : (db.orders.any fun o => o.id == oid) = true
    · rw [if_pos h1] at hr
      by_cases h2 : (db.clients.any fun x => x.id == c) = true
      · rw [if_pos h2] at hr
        injection hr with hdb2
        subst hdb2
        refine ⟨?_, ?_, ?_⟩
        · intro o ho
          obtain ⟨o0, ho0, rfl⟩ := List.mem_map.mp ho
          by_cases hb : (o0.id == oid) = true
          · rw [if_pos hb]
            exact h.1 o0 ho0
          · rw [if_neg hb]
            exact h.1 o0 ho0
        · intro o ho
          obtain ⟨o0, ho0, rfl⟩ := List.mem_map.mp ho
          by_cases hb : (o0.id == oid) = true
          · rw [if_pos hb]
            exact h.2.1 o0 ho0
          · rw [if_neg hb]
            exact h.2.1 o0 ho0
        · intro e he
          exact h.2.2 e he
      · rw [if_neg h2] at hr
        exact absurd hr (by simp)
    · rw [if_neg h1] at hr
      exact absurd hr (by simp)
theorem storeInv_order_create (db : DB) (cid : Option Nat)
    (ma mo pr im ac cl di co se es : Option String) (db2 : DB)
    (h : StoreInv db)
    (hr : order_create db cid ma mo pr im ac cl di co se es = Except.ok db2) :
    StoreInv db2 := by
  cases cid with
  | none =>
    simp only [order_create] at hr
    exact absurd hr (by simp)
  | some c =>
    simp only [order_create] at hr
    by_cases h1 : (db.clients.any fun x => x.id == c) = true
    · rw [if_pos h1] at hr
      by_cases h2 : (pyStrip (ma.getD "") == "" || pyStrip (mo.getD "") == ""
          || pyStrip (pr.getD "") == "") = true
      · rw [if_pos h2] at hr
        exact absurd hr (by simp)
      · rw [if_neg h2] at hr
        injection hr with hdb2
        subst hdb2
        refine ⟨?_, ?_, ?_⟩
        · intro o ho
          rcases List.mem_append.mp ho with ho2 | ho2
          · exact Nat.lt_succ_of_lt (h.1 o ho2)
          · rw [List.mem_singleton] at ho2
            subst ho2
            exact Nat.lt_succ_self _
        · intro o ho
          rcases List.mem_append.mp ho with ho2 | ho2
          · have hne : ¬ (⟨db.nextOrderId, es.getD "recibido",
                "Ingreso de la orden"⟩ : StatusHistory).order_id = o.id := (h.1 o ho2).ne'
            show (histFor (db.historial ++ [⟨db.nextOrderId, es.getD "recibido",
              "Ingreso de la orden"⟩]) o.id).getLast?.map StatusHistory.estado = some o.estado
            rw [histFor_append, histFor_singleton_ne _ _ hne, List.append_nil]
            exact h.2.1 o ho2
          · rw [List.mem_singleton] at ho2
            subst ho2
            show (histFor (db.historial ++ [⟨db.nextOrderId, es.getD "recibido",
              "Ingreso de la orden"⟩]) db.nextOrderId).getLast?.map StatusHistory.estado
              = some (es.getD "recibido")
            rw [histFor_append,
              show histFor [⟨db.nextOrderId, es.getD "recibido", "Ingreso de la orden"⟩]
                db.nextOrderId = [⟨db.nextOrderId, es.getD "recibido", "Ingreso de la orden"⟩]
                from by simp [histFor],
              List.getLast?_concat]
            rfl
        · intro e he
          have he2 : e ∈ (if seniaTruthyPos (pyOrZero (parse_float se)) then
              db.caja ++ [⟨"entrada", "Seña orden #" ++ toString db.nextOrderId,
                pyOrZero (parse_float se), some db.nextOrderId⟩]
            else db.caja) := he
          by_cases hs : seniaTruthyPos (pyOrZero (parse_float se)) = true
          · rw [if_pos hs] at he2
            rcases List.mem_append.mp he2 with he3 | he3
            · exact h.2.2 e he3
            · rw [List.mem_singleton] at he3
              subst he3
              simp [seniaTruthyPos] at hs
              exact hs.2
          · rw [if_neg hs] at he2
            exact h.2.2 e he2
    · rw [if_neg h1] at hr
      exact absurd hr (by simp)

theorem ledgerPos_statusCaja (db : DB) (order : RepairOrder) (nuevo : String)
    (h : ∀ e ∈ db.caja, 0 < e.monto) : ∀ e ∈ statusCaja db order nuevo, 0 < e.monto := by
  intro e he
  unfold statusCaja at he
  split at he
  · split at he
    · rename_i hrem
      rcases List.mem_append.mp he with h2 | h2
      · exact h e h2
      · rw [List.mem_singleton] at h2
        subst h2
        exact hrem
    · exact h e he
  · split at he
    · split at he
      · rename_i hrem
        rcases List.mem_append.mp he with h2 | h2
        · exact h e h2
        · rw [List.mem_singleton] at h2
          subst h2
          exact hrem
      · exact h e he
    · exact h e he

theorem storeInv_order_change_status (db : DB) (oid : Nat) (es no : Option String) (db2 : DB)
    (h : StoreInv db) (hr : order_change_status db oid es no = Except.ok db2) :
    StoreInv db2 := by
  cases hfind : db.orders.find? (fun o => o.id == oid) with
  | none =>
    unfold order_change_status at hr
    rw [hfind] at hr
    exact absurd hr (by simp)
  | some order =>
    cases es with
    | none =>
      unfold order_change_status at hr
      rw [hfind] at hr
      exact absurd hr (by simp)
    | some nuevo =>
      rw [show order_change_status db oid (some nuevo) no
        = (if statusCodes.contains nuevo then
            Except.ok (applyStatusChange db order nuevo (pyStrip (no.getD "")))
          else Except.error "Estado inválido.")
        from by unfold order_change_status; simp only [hfind]] at hr
      by_cases hc : statusCodes.contains nuevo = true
      · rw [if_pos hc] at hr
        injection hr with hdb2
        subst hdb2
        refine ⟨?_, ?_, ?_⟩
        · intro o ho
          obtain ⟨o0, ho0, rfl⟩ := List.mem_map.mp ho
          by_cases hb : (o0.id == order.id) = true
          · rw [if_pos hb]
            exact h.1 o0 ho0
          · rw [if_neg hb]
            exact h.1 o0 ho0
        · intro o ho
          obtain ⟨o0, ho0, rfl⟩ := List.mem_map.mp ho
          by_cases hb : (o0.id == order.id) = true
          · rw [if_pos hb]
            have hbe : o0.id = order.id := eq_of_beq hb
            show (histFor (db.historial ++ [⟨order.id, nuevo, pyStrip (no.getD "")⟩])
              o0.id).getLast?.map StatusHistory.estado = some nuevo
            rw [hbe, histFor_append,
              show histFor [⟨order.id, nuevo, pyStrip (no.getD "")⟩] order.id
                = [⟨order.id, nuevo, pyStrip (no.getD "")⟩] from by simp [histFor],
              List.getLast?_concat]
            rfl
          · rw [if_neg hb]
            simp only [beq_iff_eq] at hb
            have hne : ¬ (⟨order.id, nuevo, pyStrip (no.getD "")⟩ : StatusHistory).order_id
                = o0.id := fun hh => hb hh.symm
            show (histFor (db.historial ++ [⟨order.id, nuevo, pyStrip (no.getD "")⟩])
              o0.id).getLast?.map StatusHistory.estado = some o0.estado
            rw [histFor_append, histFor_singleton_ne _ _ hne, List.append_nil]
            exact h.2.1 o0 ho0
        · intro e he
          exact ledgerPos_statusCaja db order nuevo h.2.2 e he
      · rw [if_neg hc] at hr
        exact absurd hr (by simp)

theorem storeInv_seed (db : DB) (db2 : DB) (h : StoreInv db)
    (hr : seed db = Except.ok db2) : StoreInv db2 := by
  unfold seed at hr
  split at hr
  · injection hr with hdb2
    subst hdb2
    refine ⟨?_, ?_, ?_⟩
    · intro o ho
      rcases List.mem_append.mp ho with h2 | h2
      · exact Nat.lt_succ_of_lt (h.1 o h2)
      · rw [List.mem_singleton] at h2
        subst h2
        exact Nat.lt_succ_self _
    · intro o ho
      rcases List.mem_append.mp ho with h2 | h2
      · have hne : ¬ db.nextOrderId = o.id := (h.1 o h2).ne'
        show (histFor (db.historial ++ [⟨db.nextOrderId, "recibido", "Ingreso"⟩,
          ⟨db.nextOrderId, "diagnostico", "Se detecta conector"⟩]) o.id).getLast?.map
          StatusHistory.estado = some o.estado
        rw [histFor_append,
          show histFor [⟨db.nextOrderId, "recibido", "Ingreso"⟩,
            ⟨db.nextOrderId, "diagnostico", "Se detecta conector"⟩] o.id = []
            from by simp [histFor, hne],
          List.append_nil]
        exact h.2.1 o h2
      · rw [List.mem_singleton] at h2
        subst h2
        show (histFor (db.historial ++ [⟨db.nextOrderId, "recibido", "Ingreso"⟩,
          ⟨db.nextOrderId, "diagnostico", "Se detecta conector"⟩])
          db.nextOrderId).getLast?.map StatusHistory.estado = some "diagnostico"
        rw [histFor_append,
          show histFor [⟨db.nextOrderId, "recibido", "Ingreso"⟩,
            ⟨db.nextOrderId, "diagnostico", "Se detecta conector"⟩] db.nextOrderId
            = [⟨db.nextOrderId, "recibido", "Ingreso"⟩,
               ⟨db.nextOrderId, "diagnostico", "Se detecta conector"⟩]
            from by simp [histFor],
          getLast?_append_two]
        rfl
    · intro e he
      rcases List.mem_append.mp he with h2 | h2
      · exact h.2.2 e h2
      · rw [List.mem_singleton] at h2
        subst h2
        show (0 : ℚ) < 10000
        norm_num
  · injection hr with hdb2
    subst hdb2
    exact h
theorem storeInv_applyOp (db : DB) (op : Op) (h : StoreInv db) : StoreInv (applyOp db op) := by
  cases hr : runOp db op with
  | error e =>
    unfold applyOp
    rw [hr]
    exact h
  | ok db2 =>
    unfold applyOp
    rw [hr]
    cases op with
    | clientCreate n t e d dni => exact storeInv_client_create db n t e d dni db2 h hr
    | clientUpdate cid n t e d dni => exact storeInv_client_update db cid n t e d dni db2 h hr
    | orderCreate cid ma mo pr im ac cl di co se es =>
        exact storeInv_order_create db cid ma mo pr im ac cl di co se es db2 h hr
    | orderUpdate oid cid ma mo im ac cl pr di co se =>
        exact storeInv_order_update db oid cid ma mo im ac cl pr di co se db2 h hr
    | orderChangeStatus oid es no => exact storeInv_order_change_status db oid es no db2 h hr
    | addPart oid de co => exact storeInv_add_part db oid de co db2 h hr
    | delPart pid => exact storeInv_del_part db pid db2 h hr
    | cashCreate t c m r => exact storeInv_cash_create db t c m r db2 h hr
    | seedCmd => exact storeInv_seed db db2 h hr

theorem storeInv_init : StoreInv initDB := by
  refine ⟨?_, ?_, ?_⟩ <;> intro x hx <;> exact absurd hx (List.not_mem_nil x)

theorem storeInv_applyOps (ops : List Op) : ∀ db, StoreInv db → StoreInv (applyOps db ops) := by
  induction ops with
  | nil => exact fun db h => h
  | cons op t ih => exact fun db h => ih (applyOp db op) (storeInv_applyOp db op h)

theorem storeInv_reachable (db : DB) (h : Reachable db) : StoreInv db := by
  obtain ⟨ops, rfl⟩ := h
  exact storeInv_applyOps ops initDB storeInv_init
/-- Claim C6: in every reachable store state, every order has a non-empty
status history whose most recent entry carries the order's current status;
order creation appends the initial entry and every successful status
change appends one matching entry. -/
theorem history_matches_status :
    (∀ db : DB, Reachable db → ∀ o ∈ db.orders,
        histFor db.historial o.id ≠ [] ∧
        (histFor db.historial o.id).getLast?.map StatusHistory.estado = some o.estado) ∧
    (∀ (db : DB) (cid : Option Nat) (ma mo pr im ac cl di co se es : Option String) (db2 : DB),
        order_create db cid ma mo pr im ac cl di co se es = Except.ok db2 →
        db2.historial = db.historial
          ++ [⟨db.nextOrderId, es.getD "recibido", "Ingreso de la orden"⟩]) ∧
    (∀ (db : DB) (oid : Nat) (nuevo : String) (no : Option String) (db2 : DB),
        order_change_status db oid (some nuevo) no = Except.ok db2 →
        db2.historial = db.historial ++ [⟨oid, nuevo, pyStrip (no.getD "")⟩]) := by
  refine ⟨?_, ?_, ?_⟩
  · intro db hr o ho
    have hm := (storeInv_reachable db hr).2.1 o ho
    refine ⟨?_, hm⟩
    intro hnil
    rw [hnil] at hm
    simp at hm
  · intro db cid ma mo pr im ac cl di co se es db2 hrun
    cases cid with
    | none =>
      simp only [order_create] at hrun
      exact absurd hrun (by simp)
    | some c =>
      simp only [order_create] at hrun
      by_cases h1 : (db.clients.any fun x => x.id == c) = true
      · rw [if_pos h1] at hrun
        by_cases h2 : (pyStrip (ma.getD "") == "" || pyStrip (mo.getD "") == ""
            || pyStrip (pr.getD "") == "") = true
        · rw [if_pos h2] at hrun
          exact absurd hrun (by simp)
        · rw [if_neg h2] at hrun
          injection hrun with hdb2
          rw [← hdb2]
      · rw [if_neg h1] at hrun
        exact absurd hrun (by simp)
  · intro db oid nuevo no db2 hrun
    cases hfind : db.orders.find? (fun o => o.id == oid) with
    | none =>
      unfold order_change_status at hrun
      rw [hfind] at hrun
      exact absurd hrun (by simp)
    | some order =>
      have hid : order.id = oid := by simpa using List.find?_some hfind
      rw [show order_change_status db oid (some nuevo) no
        = (if statusCodes.contains nuevo then
            Except.ok (applyStatusChange db order nuevo (pyStrip (no.getD "")))
          else Except.error "Estado inválido.")
        from by unfold order_change_status; simp only [hfind]] at hrun
      by_cases hc : statusCodes.contains nuevo = true
      · rw [if_pos hc] at hrun
        injection hrun with hdb2
        rw [← hdb2, ← hid]
        rfl
      · rw [if_neg hc] at hrun
        exact absurd hrun (by simp)

/-- Witness for C6: the seeded demo order (status "diagnostico") has a
non-empty history ending in "diagnostico". -/
theorem history_matches_status_witness :
    histFor (applyOps initDB [Op.seedCmd]).historial 1 ≠ [] ∧
    (histFor (applyOps initDB [Op.seedCmd]).historial 1).getLast?.map StatusHistory.estado
      = some "diagnostico" :=
  history_matches_status.1 (applyOps initDB [Op.seedCmd]) ⟨[Op.seedCmd], rfl⟩
    ⟨1, 1, "Samsung", "A54", "3598...", "Funda", "1-2-5-8", "No carga", "Conector",
      some 45000, 10000, "diagnostico"⟩ (by decide)

/-- Claim C9: every ledger entry in every reachable store state has a
strictly positive amount, and a manual cash entry with an unknown
direction, a blank concept, or a non-positive or malformed amount is
rejected with nothing written. -/
theorem ledger_amounts_positive :
    (∀ db : DB, Reachable db → ∀ e ∈ db.caja, 0 < e.monto) ∧
    (∀ (db : DB) (tipo concepto montoRaw : Option String) (orderRef : Option Nat),
        ((∀ t, tipo = some t → t ≠ "entrada" ∧ t ≠ "salida")
          ∨ pyStrip (concepto.getD "") = ""
          ∨ pyOrZero (parse_float montoRaw) ≤ 0) →
        cash_create db tipo concepto montoRaw orderRef
          = Except.error "Completar tipo, concepto y monto (>0)." ∧
        applyOp db (Op.cashCreate tipo concepto montoRaw orderRef) = db) := by
  constructor
  · intro db hr
    exact (storeInv_reachable db hr).2.2
  · intro db tipo concepto montoRaw orderRef hbad
    have herr : cash_create db tipo concepto montoRaw orderRef
        = Except.error "Completar tipo, concepto y monto (>0)." := by
      cases tipo with
      | none => simp only [cash_create]
      | some t =>
        simp only [cash_create]
        rw [if_pos ?hc]
        case hc =>
          rcases hbad with hb | hb | hb
          · have ht := hb t rfl
            simp [ht.1, ht.2]
          · simp [hb]
          · simp [hb]
    refine ⟨herr, ?_⟩
    unfold applyOp
    rw [show runOp db (Op.cashCreate tipo concepto montoRaw orderRef)
      = Except.error "Completar tipo, concepto y monto (>0)." from herr]

/-- Witness for C9: the seeded deposit entry's amount 10000 is positive,
and a manual entry of amount "-5" is rejected. -/
theorem ledger_amounts_positive_witness :
    (0 : ℚ) < 10000 ∧
    cash_create demo1 (some "entrada") (some "gasto") (some "-5") none
      = Except.error "Completar tipo, concepto y monto (>0)." := by
  constructor
  · exact ledger_amounts_positive.1 (applyOps initDB [Op.seedCmd]) ⟨[Op.seedCmd], rfl⟩
      ⟨"entrada", "Seña orden #1", 10000, some 1⟩ (by decide)
  · refine (ledger_amounts_positive.2 demo1 (some "entrada") (some "gasto") (some "-5") none
      (Or.inr (Or.inr ?_))).1
    have hp : parse_float (some "-5") = some (-5) := by
      simp [parse_float, pyFloat, pyStrip, pyReplaceChar, pyIsSpace, digitsVal]
    rw [hp]
    simp [pyOrZero]
/-- Counterexample to C7 as stated: `order_create` stores the
form-supplied initial status without validating it, so a reachable state
holds an order whose status "xyz" is outside the enumeration. -/
theorem status_enum_counterexample :
    Reachable (applyOps initDB badOps) ∧
    ∃ o ∈ (applyOps initDB badOps).orders, ¬ o.estado ∈ statusCodes :=
  ⟨⟨badOps, rfl⟩, by decide⟩
theorem statusOk_applyOp (db : DB) (op : Op) (hv : statusInputOk op)
    (h : ∀ o ∈ db.orders, o.estado ∈ statusCodes) :
    ∀ o ∈ (applyOp db op).orders, o.estado ∈ statusCodes := by
  cases hr : runOp db op with
  | error e =>
    unfold applyOp
    rw [hr]
    exact h
  | ok db2 =>
    unfold applyOp
    rw [hr]
    show ∀ o ∈ db2.orders, o.estado ∈ statusCodes
    cases op with
    | clientCreate n t e d dni =>
      have hr2 : client_create db n t e d dni = Except.ok db2 := hr
      have ho : db2.orders = db.orders := by
        simp only [client_create] at hr2
        split at hr2
        · exact absurd hr2 (by simp)
        · split at hr2
          · exact absurd hr2 (by simp)
          · injection hr2 with hdb2
            rw [← hdb2]
      rw [ho]
      exact h
    | clientUpdate cid n t e d dni =>
      have hr2 : client_update db cid n t e d dni = Except.ok db2 := hr
      have ho : db2.orders = db.orders := by
        simp only [client_update] at hr2
        split at hr2
        · split at hr2
          · exact absurd hr2 (by simp)
          · split at hr2
            · exact absurd hr2 (by simp)
            · injection hr2 with hdb2
              rw [← hdb2]
        · exact absurd hr2 (by simp)
      rw [ho]
      exact h
    | addPart oid de co =>
      have hr2 : add_part db oid de co = Except.ok db2 := hr
      have ho : db2.orders = db.orders := by
        simp only [add_part] at hr2
        split at hr2
        · split at hr2
          · exact absurd hr2 (by simp)
          · injection hr2 with hdb2
            rw [← hdb2]
        · exact absurd hr2 (by simp)
      rw [ho]
      exact h
    | delPart pid =>
      have hr2 : del_part db pid = Except.ok db2 := hr
      have ho : db2.orders = db.orders := by
        simp only [del_part] at hr2
        split at hr2
        · injection hr2 with hdb2
          rw [← hdb2]
        · exact absurd hr2 (by simp)
      rw [ho]
      exact h
    | cashCreate t c m r =>
      have hr2 : cash_create db t c m r = Except.ok db2 := hr
      have ho : db2.orders = db.orders := by
        cases t with
        | none =>
          simp only [cash_create] at hr2
          exact absurd hr2 (by simp)
        | some t2 =>
          simp only [cash_create] at hr2
          split at hr2
          · exact absurd hr2 (by simp)
          · injection hr2 with hdb2
            rw [← hdb2]
      rw [ho]
      exact h
    | orderCreate cid ma mo pr im ac cl di co se es =>
      have hr2 : order_create db cid ma mo pr im ac cl di co se es = Except.ok db2 := hr
      cases cid with
      | none =>
        simp only [order_create] at hr2
        exact absurd hr2 (by simp)
      | some c =>
        simp only [order_create] at hr2
        by_cases h1 : (db.clients.any fun x => x.id == c) = true
        · rw [if_pos h1] at hr2
          by_cases h2 : (pyStrip (ma.getD "") == "" || pyStrip (mo.getD "") == ""
              || pyStrip (pr.getD "") == "") = true
          · rw [if_pos h2] at hr2
            exact absurd hr2 (by simp)
          · rw [if_neg h2] at hr2
            injection hr2 with hdb2
            subst hdb2
            intro o ho
            rcases List.mem_append.mp ho with ho2 | ho2
            · exact h o ho2
            · rw [List.mem_singleton] at ho2
              subst ho2
              show es.getD "recibido" ∈ statusCodes
              cases es with
              | none => decide
              | some e2 => exact hv
        · rw [if_neg h1] at hr2
          exact absurd hr2 (by simp)
    | orderUpdate oid cid ma mo im ac cl pr di co se =>
      have hr2 : order_update db oid cid ma mo im ac cl pr di co se = Except.ok db2 := hr
      cases cid with
      | none =>
        simp only [order_update] at hr2
        split at hr2 <;> exact absurd hr2 (by simp)
      | some c =>
        simp only [order_update] at hr2
        by_cases h1 : (db.orders.any fun o => o.id == oid) = true
        · rw [if_pos h1] at hr2
          by_cases h2 : (db.clients.any fun x => x.id == c) = true
          · rw [if_pos h2] at hr2
            injection hr2 with hdb2
            subst hdb2
            intro o ho
            obtain ⟨o0, ho0, rfl⟩ := List.mem_map.mp ho
            by_cases hb : (o0.id == oid) = true
            · rw [if_pos hb]
              exact h o0 ho0
            · rw [if_neg hb]
              exact h o0 ho0
          · rw [if_neg h2] at hr2
            exact absurd hr2 (by simp)
        · rw [if_neg h1] at hr2
          exact absurd hr2 (by simp)
    | orderChangeStatus oid es no =>
      have hr2 : order_change_status db oid es no = Except.ok db2 := hr
      cases hfind : db.orders.find? (fun o => o.id == oid) with
      | none =>
        unfold order_change_status at hr2
        rw [hfind] at hr2
        exact absurd hr2 (by simp)
      | some order =>
        cases es with
        | none =>
          unfold order_change_status at hr2
          rw [hfind] at hr2
          exact absurd hr2 (by simp)
        | some nuevo =>
          rw [show order_change_status db oid (some nuevo) no
            = (if statusCodes.contains nuevo then
                Except.ok (applyStatusChange db order nuevo (pyStrip (no.getD "")))
              else Except.error "Estado inválido.")
            from by unfold order_change_status; simp only [hfind]] at hr2
          by_cases hc : statusCodes.contains nuevo = true
          · rw [if_pos hc] at hr2
            injection hr2 with hdb2
            subst hdb2
            intro o ho
            obtain ⟨o0, ho0, rfl⟩ := List.mem_map.mp ho
            by_cases hb : (o0.id == order.id) = true
            · rw [if_pos hb]
              exact mem_of_contains hc
            · rw [if_neg hb]
              exact h o0 ho0
          · rw [if_neg hc] at hr2
            exact absurd hr2 (by simp)
    | seedCmd =>
      have hr2 : seed db = Except.ok db2 := hr
      unfold seed at hr2
      split at hr2
      · injection hr2 with hdb2
        subst hdb2
        intro o ho
        rcases List.mem_append.mp ho with ho2 | ho2
        · exact h o ho2
        · rw [List.mem_singleton] at ho2
          subst ho2
          show "diagnostico" ∈ statusCodes
          decide
      · injection hr2 with hdb2
        subst hdb2
        exact h

/-- Claim C7 (amended): in every state reached by requests whose explicit
initial order status, when supplied at order creation, belongs to the
enumeration, every order's status belongs to the enumeration;
`order_change_status` validates its target status, while `order_create`
stores the supplied one unvalidated (default "recibido"). -/
theorem status_in_enumeration (ops : List Op) (hv : ∀ op ∈ ops, statusInputOk op) :
    ∀ o ∈ (applyOps initDB ops).orders, o.estado ∈ statusCodes := by
  have haux : ∀ (l : List Op), (∀ op ∈ l, statusInputOk op) →
      ∀ db : DB, (∀ o ∈ db.orders, o.estado ∈ statusCodes) →
      ∀ o ∈ (applyOps db l).orders, o.estado ∈ statusCodes := by
    intro l
    induction l with
    | nil => exact fun _ db h => h
    | cons op t ih =>
      intro hl db h
      exact ih (fun x hx => hl x (List.mem_cons_of_mem op hx)) (applyOp db op)
        (statusOk_applyOp db op (hl op (List.mem_cons_self op t)) h)
  exact haux ops hv initDB (fun o ho => absurd ho (List.not_mem_nil o))

/-- Witness for C7 (amended): after the valid seed request, the seeded
order's status "diagnostico" is in the enumeration. -/
theorem status_in_enumeration_witness :
    (⟨1, 1, "Samsung", "A54", "3598...", "Funda", "1-2-5-8", "No carga", "Conector",
      some 45000, 10000, "diagnostico"⟩ : RepairOrder).estado ∈ statusCodes :=
  status_in_enumeration [Op.seedCmd]
    (fun op hop => by
      rw [List.mem_singleton] at hop
      subst hop
      exact trivial)
    ⟨1, 1, "Samsung", "A54", "3598...", "Funda", "1-2-5-8", "No carga", "Conector",
      some 45000, 10000, "diagnostico"⟩ (by decide)

end SatApp
